import Mathlib

/-!
Shallow embedding of the rctiplus-rabbitmq-python-sdk client library
(package `rctiplus_rabbitmq_python_sdk`: `rabbitmq.py`, `aio_rabbitmq.py`,
`message_payload.py`).

The broker and the underlying AMQP transports (pika / aio_pika) are
external collaborators: every call a client method makes on its channel
object is recorded as an `Effect`, and the outcome of the fallible passive
checks is supplied by a `ChannelEnv` oracle.  Python exceptions become an
explicit `PyErr` error type; a method body that can raise returns
`Except PyErr`.  Client objects are immutable records and every method
returns the updated record, mirroring the `self.x = ...` assignments of
the Python source (a method with no such assignment returns its receiver
unchanged).
-/

/-- Python exceptions that can cross the boundaries modelled here.
`noneTypeAttr a` stands for the `AttributeError` raised by evaluating
`None.a` (as in `self.channel.queue_declare` when `self.channel is None`);
the remaining constructors model the open-ended set of exceptions an
awaited channel call may raise (the source catches them with a bare
`except:`). -/
inductive PyErr where
  | noneTypeAttr (attr : String)
  | notImplementedError
  | queueNotFound
  | exchangeNotFound
  | channelClosed
  | transportError
  | typeError
  | generic (msg : String)
deriving DecidableEq, Repr

/-- Handle returned by exchange resolution in `aio_rabbitmq.py`:
either fetched passively by `get_exchange` or created by
`declare_exchange`. -/
inductive ExchangeHandle where
  | fetched (name : String)
  | declared (name : String)
deriving DecidableEq, Repr

/-- One call made by a client method on its channel / connection objects.
Constructors prefixed `basic_`/`queue_`/`exchange_` mirror the blocking
pika API, the rest mirror the aio_pika API. -/
inductive Effect where
  | get_queue (name : String) (ensure : Bool)
  | reopen
  | declare_queue (name : String) (durable : Bool) (auto_delete : Bool)
  | get_exchange (name : String)
  | declare_exchange (name : String) (auto_delete : Bool)
  | publish_default (body : String) (delivery_mode : Option Nat) (routing_key : String)
  | publish_on (h : ExchangeHandle) (body : String) (delivery_mode : Option Nat) (routing_key : String)
  | consume (queueName : String) (no_ack : Bool)
  | queue_declare (queue : String) (durable : Bool) (auto_delete : Bool)
  | basic_publish (exchange : String) (routing_key : String) (body : String) (delivery_mode : Option Nat)
  | basic_consume (queue : String) (auto_ack : Bool)
  | start_consuming
  | queue_delete (queue : String)
  | exchange_delete (exchange : String)
  | connection_close
  | basic_ack (delivery_tag : Nat)
  | message_ack
deriving DecidableEq, Repr

/-! ### urllib.parse.quote, as called by `AIORabbitMQ.connect`

`urllib.parse.quote(s)` (no `safe` argument) leaves ASCII letters,
digits, `_`, `.`, `-`, `~` and — because the default is `safe='/'` —
the slash unescaped, and replaces every other byte of the UTF-8
encoding of `s` by `%XX` with uppercase hexadecimal digits. -/

/-- Uppercase hexadecimal digit for a value below 16. -/
def hexUpper (n : Nat) : Char :=
  if n < 10 then Char.ofNat (48 + n) else Char.ofNat (55 + n)

/-- Bytes that `urllib.parse.quote` with its default `safe='/'` leaves
as-is: the always-safe set (ASCII alphanumerics and `_.-~`) plus `/`. -/
def quoteKeeps (c : Char) : Bool :=
  (c.isAlpha || c.isDigit || c = '_' || c = '.' || c = '-' || c = '~') || c = '/'

/-- UTF-8 encoding of one character, as a list of byte values. -/
def utf8Bytes (c : Char) : List Nat :=
  let n := c.toNat
  if n < 128 then [n]
  else if n < 2048 then [192 + n / 64, 128 + n % 64]
  else if n < 65536 then [224 + n / 4096, 128 + (n / 64) % 64, 128 + n % 64]
  else [240 + n / 262144, 128 + (n / 4096) % 64, 128 + (n / 64) % 64, 128 + n % 64]

/-- Percent-encoding of one byte: kept verbatim when safe, otherwise
`%XX`. -/
def quoteByte (b : Nat) : List Char :=
  if quoteKeeps (Char.ofNat b) then [Char.ofNat b]
  else ['%', hexUpper (b / 16), hexUpper (b % 16)]

/-- `urllib.parse.quote(s)` with the default safe set. -/
def pythonQuote (s : String) : String :=
  ⟨(s.data.flatMap utf8Bytes).flatMap quoteByte⟩

/-- The `if port: port = ':' + str(port) else: port = ''` step of
`AIORabbitMQ.connect` (a Python `int` is falsy exactly when zero). -/
def aioPortPart (port : Nat) : String :=
  if port ≠ 0 then ":" ++ toString port else ""

/-- The f-string `f'amqp://{username}:{password}@{host}{port}/'` of
`AIORabbitMQ.connect`, applied after both credentials went through
`urllib.parse.quote`. -/
def aioConnectionUrl (username password host : String) (port : Nat) : String :=
  "amqp://" ++ pythonQuote username ++ ":" ++ pythonQuote password ++ "@" ++ host
    ++ aioPortPart port ++ "/"

/-- Authority component a generic URL parser extracts from a URL of the
shape `amqp://...`: everything after the scheme separator up to the first
`/` (RFC 3986: the authority is terminated by `/`, `?` or `#`).  Used to
state whether credentials corrupted the URL structure. -/
def urlAuthority (url : String) : String :=
  ⟨(url.data.drop 7).takeWhile (fun c => c ≠ '/')⟩

/-- The `'http://%s:%s/api/queues/%s' % (host, port, virtual_host or '')`
URL of `AIORabbitMQ.get_list_queues` (`x or ''` maps Python `None` to the
empty string). -/
def managementUrl (host : String) (port : Nat) (virtual_host : Option String) : String :=
  "http://" ++ host ++ ":" ++ toString port ++ "/api/queues/" ++ virtual_host.getD ""

/-- One element of the JSON array returned by the management API
endpoint `/api/queues/...`: an object with a `name` field (other fields
are carried opaquely). -/
structure ApiQueue where
  name : String
  otherFields : List (String × String)
deriving DecidableEq, Repr

/-- Responses of the awaited channel calls of `aio_rabbitmq.py` whose
outcome the broker decides: the passive fetches (which raise when the
entity is absent or the channel state is bad) and the declarations
(which raise on a parameter conflict). -/
structure ChannelEnv where
  get_queue : String → Except PyErr Unit
  declare_queue : String → Bool → Bool → Except PyErr Unit
  get_exchange : String → Except PyErr Unit
  declare_exchange : String → Bool → Except PyErr Unit

/-- Environment in which every channel call succeeds. -/
def envAllOk : ChannelEnv where
  get_queue := fun _ => .ok ()
  declare_queue := fun _ _ _ => .ok ()
  get_exchange := fun _ => .ok ()
  declare_exchange := fun _ _ => .ok ()

/-- Environment in which every passive fetch raises `e` and every
declaration succeeds. -/
def envPassiveFails (e : PyErr) : ChannelEnv where
  get_queue := fun _ => .error e
  declare_queue := fun _ _ _ => .ok ()
  get_exchange := fun _ => .error e
  declare_exchange := fun _ _ => .ok ()

/-- Environment in which only the passive queue fetch raises `e` and
every other channel call succeeds. -/
def envQueueFails (e : PyErr) : ChannelEnv where
  get_queue := fun _ => .error e
  declare_queue := fun _ _ _ => .ok ()
  get_exchange := fun _ => .ok ()
  declare_exchange := fun _ _ => .ok ()

/-! ### The blocking client (`rabbitmq.py`, class `RabbitMQ`) -/

/-- State of a `RabbitMQ` instance: the four configuration attributes
set by `__init__` and the `connection` / `channel` attributes (Python
`None` is `Option.none`; the connection and channel objects themselves
live with the collaborator, so presence is all that is recorded). -/
structure RabbitMQ where
  durable : Bool
  delivery_mode : Option Nat
  auto_ack : Bool
  auto_delete : Bool
  connection : Option Unit
  channel : Option Unit
deriving DecidableEq, Repr

/-- `RabbitMQ.__init__(durable, auto_ack, auto_delete)`. -/
def RabbitMQ.init (durable auto_ack auto_delete : Bool) : RabbitMQ where
  durable := durable
  delivery_mode := if durable then some 2 else none
  auto_ack := auto_ack
  auto_delete := auto_delete
  connection := none
  channel := none

/-- `RabbitMQ.connect(host, port, username, password)`: opens a blocking
connection with plain credentials and one channel (transport faults are
outside this model, so the call always yields a live pair). -/
def RabbitMQ.connect (c : RabbitMQ) (_host : String) (_port : Nat)
    (_username _password : String) : RabbitMQ :=
  { c with connection := some (), channel := some () }

/-- `RabbitMQ.disconnect()`: `self.connection.close()`.  The attributes
`connection` and `channel` are not reassigned. -/
def RabbitMQ.disconnect (c : RabbitMQ) : RabbitMQ × Except PyErr (List Effect) :=
  match c.connection with
  | none => (c, .error (.noneTypeAttr "close"))
  | some _ => (c, .ok [.connection_close])

/-- `RabbitMQ.send(queue, body, exchange='')`: `queue_declare` with the
configured flags, then `basic_publish` with `delivery_mode` in the
properties.  `body` is passed as `str(body)`. -/
def RabbitMQ.send (c : RabbitMQ) (queue body exchange : String) :
    RabbitMQ × Except PyErr (List Effect) :=
  match c.channel with
  | none => (c, .error (.noneTypeAttr "queue_declare"))
  | some _ =>
    (c, .ok [.queue_declare queue c.durable c.auto_delete,
             .basic_publish exchange queue body c.delivery_mode])

/-- `RabbitMQ.receive(queue, callback)`: `queue_declare`, then
`basic_consume` with `auto_ack`, then `start_consuming`. -/
def RabbitMQ.receive (c : RabbitMQ) (queue : String) :
    RabbitMQ × Except PyErr (List Effect) :=
  match c.channel with
  | none => (c, .error (.noneTypeAttr "queue_declare"))
  | some _ =>
    (c, .ok [.queue_declare queue c.durable c.auto_delete,
             .basic_consume queue c.auto_ack, .start_consuming])

/-- `RabbitMQ.delete_queue(queue)`: `self.channel.queue_delete(queue)`. -/
def RabbitMQ.delete_queue (c : RabbitMQ) (queue : String) :
    RabbitMQ × Except PyErr (List Effect) :=
  match c.channel with
  | none => (c, .error (.noneTypeAttr "queue_delete"))
  | some _ => (c, .ok [.queue_delete queue])

/-- `RabbitMQ.delete_exchange(exchange)`:
`self.channel.exchange_delete(exchange)`. -/
def RabbitMQ.delete_exchange (c : RabbitMQ) (exchange : String) :
    RabbitMQ × Except PyErr (List Effect) :=
  match c.channel with
  | none => (c, .error (.noneTypeAttr "exchange_delete"))
  | some _ => (c, .ok [.exchange_delete exchange])

/-- `RabbitMQ.commit_ack(ch, method)`: `ch.basic_ack(method.delivery_tag)`
on the callback-supplied channel, not on `self.channel`. -/
def RabbitMQ.commit_ack (c : RabbitMQ) (delivery_tag : Nat) :
    RabbitMQ × List Effect :=
  (c, [.basic_ack delivery_tag])

/-! ### The async client (`aio_rabbitmq.py`, class `AIORabbitMQ`) -/

/-- State of an `AIORabbitMQ` instance.  `__init__` stores
`aio_pika.DeliveryMode(2)` when durable; its numeric value 2 is what is
recorded here, `none` standing for Python `None`. -/
structure AIORabbitMQ where
  durable : Bool
  delivery_mode : Option Nat
  auto_ack : Bool
  auto_delete : Bool
  connection : Option Unit
  channel : Option Unit
deriving DecidableEq, Repr

/-- `AIORabbitMQ.__init__(loop, durable, auto_ack, auto_delete)` (the
event loop is scheduling machinery outside this model). -/
def AIORabbitMQ.init (durable auto_ack auto_delete : Bool) : AIORabbitMQ where
  durable := durable
  delivery_mode := if durable then some 2 else none
  auto_ack := auto_ack
  auto_delete := auto_delete
  connection := none
  channel := none

/-- `AIORabbitMQ.connect(host, port, username, password)`: quotes both
credentials, builds the amqp URL, opens a robust connection and one
channel.  Returns the updated state and the URL handed to
`aio_pika.connect_robust`. -/
def AIORabbitMQ.connect (c : AIORabbitMQ) (host : String) (port : Nat)
    (username password : String) : AIORabbitMQ × String :=
  ({ c with connection := some (), channel := some () },
   aioConnectionUrl username password host port)

/-- `AIORabbitMQ.disconnect()`: `await self.connection.close()`; the
attributes are not reassigned. -/
def AIORabbitMQ.disconnect (c : AIORabbitMQ) : AIORabbitMQ × Except PyErr (List Effect) :=
  match c.connection with
  | none => (c, .error (.noneTypeAttr "close"))
  | some _ => (c, .ok [.connection_close])

/-- The try/except block shared verbatim by `AIORabbitMQ.send` and
`AIORabbitMQ.receive`:

    try:
        await self.channel.get_queue(queue, ensure=True)
    except:
        await self.channel.reopen()
        await self.channel.declare_queue(queue, durable=self.durable,
                                         auto_delete=self.auto_delete)

The bare `except:` catches every exception of the passive fetch; an
exception of `declare_queue` itself is not caught and propagates. -/
def AIORabbitMQ.ensure_queue (c : AIORabbitMQ) (env : ChannelEnv) (queue : String) :
    List Effect × Except PyErr Unit :=
  match env.get_queue queue with
  | .ok _ => ([.get_queue queue true], .ok ())
  | .error _ =>
    match env.declare_queue queue c.durable c.auto_delete with
    | .ok _ =>
      ([.get_queue queue true, .reopen,
        .declare_queue queue c.durable c.auto_delete], .ok ())
    | .error e =>
      ([.get_queue queue true, .reopen,
        .declare_queue queue c.durable c.auto_delete], .error e)

/-- The publish half of `AIORabbitMQ.send`: on the empty exchange name,
publish through `self.channel.default_exchange`; otherwise resolve the
exchange by passive `get_exchange`, falling back on any exception to
`reopen` plus `declare_exchange(exchange, auto_delete=self.auto_delete)`,
and publish on the resolved handle.  Both publishes use
`aio_pika.Message(bytes(str(body), 'utf-8'),
delivery_mode=self.delivery_mode)` and route by the queue name. -/
def AIORabbitMQ.publish_step (c : AIORabbitMQ) (env : ChannelEnv)
    (queue body exchange : String) : List Effect × Except PyErr Unit :=
  if exchange = "" then
    ([.publish_default body c.delivery_mode queue], .ok ())
  else
    match env.get_exchange exchange with
    | .ok _ =>
      ([.get_exchange exchange,
        .publish_on (.fetched exchange) body c.delivery_mode queue], .ok ())
    | .error _ =>
      match env.declare_exchange exchange c.auto_delete with
      | .ok _ =>
        ([.get_exchange exchange, .reopen, .declare_exchange exchange c.auto_delete,
          .publish_on (.declared exchange) body c.delivery_mode queue], .ok ())
      | .error e =>
        ([.get_exchange exchange, .reopen,
          .declare_exchange exchange c.auto_delete], .error e)

/-- `AIORabbitMQ.send(queue, body, exchange='')`: the ensure-queue block
followed by the publish step.  `body` is passed as `str(body)`.  When
`self.channel` is `None` the first attribute access raises. -/
def AIORabbitMQ.send (c : AIORabbitMQ) (env : ChannelEnv)
    (queue body exchange : String) : AIORabbitMQ × List Effect × Except PyErr Unit :=
  match c.channel with
  | none => (c, [], .error (.noneTypeAttr "get_queue"))
  | some _ =>
    match c.ensure_queue env queue with
    | (tr, .error e) => (c, tr, .error e)
    | (tr, .ok _) =>
      let ps := c.publish_step env queue body exchange
      (c, tr ++ ps.1, ps.2)

/-- `AIORabbitMQ.receive(queue, callback)`: the ensure-queue block, then
`queue.consume(callback, no_ack=self.auto_ack)` on the obtained handle. -/
def AIORabbitMQ.receive (c : AIORabbitMQ) (env : ChannelEnv) (queue : String) :
    AIORabbitMQ × List Effect × Except PyErr Unit :=
  match c.channel with
  | none => (c, [], .error (.noneTypeAttr "get_queue"))
  | some _ =>
    match c.ensure_queue env queue with
    | (tr, .error e) => (c, tr, .error e)
    | (tr, .ok _) => (c, tr ++ [.consume queue c.auto_ack], .ok ())

/-- `AIORabbitMQ.get_list_queues(user, password, host, port,
virtual_host)`: an HTTP GET (modelled by the `http` oracle, given the URL
and the basic-auth pair) whose parsed JSON body is a list of objects; the
method returns `[q['name'] for q in response.json()]`. -/
def AIORabbitMQ.get_list_queues (c : AIORabbitMQ)
    (http : String → String × String → List ApiQueue)
    (user password host : String) (port : Nat) (virtual_host : Option String) :
    AIORabbitMQ × List String :=
  let response := http (managementUrl host port virtual_host) (user, password)
  (c, response.map ApiQueue.name)

/-- `AIORabbitMQ.delete_queue(queue)`:
`await self.channel.queue_delete(queue)`. -/
def AIORabbitMQ.delete_queue (c : AIORabbitMQ) (queue : String) :
    AIORabbitMQ × Except PyErr (List Effect) :=
  match c.channel with
  | none => (c, .error (.noneTypeAttr "queue_delete"))
  | some _ => (c, .ok [.queue_delete queue])

/-- `AIORabbitMQ.delete_exchange(exchange)`:
`await self.channel.exchange_delete(exchange)`. -/
def AIORabbitMQ.delete_exchange (c : AIORabbitMQ) (exchange : String) :
    AIORabbitMQ × Except PyErr (List Effect) :=
  match c.channel with
  | none => (c, .error (.noneTypeAttr "exchange_delete"))
  | some _ => (c, .ok [.exchange_delete exchange])

/-- `AIORabbitMQ.commit_ack(incoming_message)`:
`await incoming_message.ack()`. -/
def AIORabbitMQ.commit_ack (c : AIORabbitMQ) : AIORabbitMQ × List Effect :=
  (c, [.message_ack])

/-! ### The base payload contract (`message_payload.py`) -/

/-- `MessagePayload.from_str(message)`: `raise NotImplementedError()`. -/
def MessagePayload.from_str (_message : String) : Except PyErr Unit :=
  .error .notImplementedError

/-- `MessagePayload.__str__(self)`: `raise NotImplementedError()` (the
receiver of the base class carries no data, hence `Unit`). -/
def MessagePayload.str (_self : Unit) : Except PyErr String :=
  .error .notImplementedError

/-! ### Observation helpers over effect traces -/

/-- Delivery modes attached to the publish effects of a trace, in
order. -/
def publishModes (tr : List Effect) : List (Option Nat) :=
  tr.filterMap fun eff =>
    match eff with
    | .publish_default _ dm _ => some dm
    | .publish_on _ _ dm _ => some dm
    | .basic_publish _ _ _ dm => some dm
    | _ => none

/-- Whether an effect declares an exchange. -/
def isExchangeDeclare : Effect → Bool
  | .declare_exchange _ _ => true
  | _ => false

/-- Whether an effect touches exchange resolution at all (passive fetch
or declaration). -/
def isExchangeResolution : Effect → Bool
  | .get_exchange _ => true
  | .declare_exchange _ _ => true
  | _ => false

/-- The four configuration attributes of a blocking client. -/
def RabbitMQ.config (c : RabbitMQ) : Bool × Option Nat × Bool × Bool :=
  (c.durable, c.delivery_mode, c.auto_ack, c.auto_delete)

/-- The four configuration attributes of an async client. -/
def AIORabbitMQ.config (c : AIORabbitMQ) : Bool × Option Nat × Bool × Bool :=
  (c.durable, c.delivery_mode, c.auto_ack, c.auto_delete)

/-- Effects of a result that succeeded, nothing otherwise. -/
def okEffects : Except PyErr (List Effect) → List Effect
  | .ok l => l
  | .error _ => []

/-- A non-durable blocking client that has gone through `connect`. -/
def syncConnected : RabbitMQ :=
  (RabbitMQ.init false true false).connect "localhost" 5672 "guest" "guest"

/-- A non-durable async client that has gone through `connect`. -/
def aioConnected : AIORabbitMQ :=
  ((AIORabbitMQ.init false true false).connect "localhost" 5672 "guest" "guest").1

/-! ### Helper lemmas about the percent-encoder -/

theorem utf8Bytes_lt (c : Char) : ∀ b ∈ utf8Bytes c, b < 256 := by
  intro b hb
  have hc : c.toNat < 1114112 := by
    rcases c.valid with h | h
    · exact Nat.lt_trans h (by norm_num)
    · exact h.2
  unfold utf8Bytes at hb
  dsimp only at hb
  split at hb
  · simp only [List.mem_singleton] at hb
    omega
  · split at hb
    · simp only [List.mem_cons, List.mem_singleton, List.not_mem_nil, or_false] at hb
      rcases hb with rfl | rfl <;> omega
    · split at hb
      · simp only [List.mem_cons, List.mem_singleton, List.not_mem_nil, or_false] at hb
        rcases hb with rfl | rfl | rfl <;> omega
      · simp only [List.mem_cons, List.mem_singleton, List.not_mem_nil, or_false] at hb
        rcases hb with rfl | rfl | rfl | rfl <;> omega

theorem hexUpper_ne_colon_at (n : Nat) (hn : n < 16) :
    hexUpper n ≠ ':' ∧ hexUpper n ≠ '@' := by
  interval_cases n <;> exact ⟨by decide, by decide⟩

theorem mem_quoteByte_ne (ch : Char) (b : Nat) (hb : b < 256)
    (h : ch ∈ quoteByte b) : ch ≠ ':' ∧ ch ≠ '@' := by
  unfold quoteByte at h
  split at h
  · next hk =>
    simp only [List.mem_singleton] at h
    subst h
    refine ⟨fun heq => ?_, fun heq => ?_⟩ <;> rw [heq] at hk <;>
      exact absurd hk (by decide)
  · simp only [List.mem_cons, List.mem_singleton, List.not_mem_nil, or_false] at h
    rcases h with rfl | rfl | rfl
    · exact ⟨by decide, by decide⟩
    · exact hexUpper_ne_colon_at _ (Nat.div_lt_of_lt_mul (by omega))
    · exact hexUpper_ne_colon_at _ (Nat.mod_lt _ (by omega))

theorem pythonQuote_no_authority_delims (s : String) :
    ∀ ch ∈ (pythonQuote s).data, ch ≠ ':' ∧ ch ≠ '@' := by
  intro ch hch
  have hch' : ch ∈ (s.data.flatMap utf8Bytes).flatMap quoteByte := hch
  rw [List.mem_flatMap] at hch'
  obtain ⟨b, hb, hchb⟩ := hch'
  rw [List.mem_flatMap] at hb
  obtain ⟨c, _, hbc⟩ := hb
  exact mem_quoteByte_ne ch b (utf8Bytes_lt c b hbc) hchb

/-! ### Claims -/

/-- Claim C6: invoking either direction of the base payload contract
directly — from_str on any string, or string-serialization of a base
MessagePayload instance — always fails fast with the not-implemented
error; the base contract provides no default behavior. -/
theorem claim_C6_base_payload_fails_fast :
    (∀ message : String, MessagePayload.from_str message = .error .notImplementedError) ∧
    (∀ self : Unit, MessagePayload.str self = .error .notImplementedError) :=
  ⟨fun _ => rfl, fun _ => rfl⟩

/-- Claim C8: get_list_queues returns exactly the name field of each
object of the JSON array the administrative HTTP API answered with, in
the same order, with no sorting, filtering or deduplication; against a
broker answering with queues a, b it returns exactly [a, b]. -/
theorem claim_C8_queue_names_in_api_order
    (c : AIORabbitMQ) (http : String → String × String → List ApiQueue)
    (user password host : String) (port : Nat) (virtual_host : Option String) :
    ((c.get_list_queues http user password host port virtual_host).2
      = (http (managementUrl host port virtual_host) (user, password)).map ApiQueue.name) ∧
    (∀ i : Nat,
      ((c.get_list_queues http user password host port virtual_host).2)[i]?
        = ((http (managementUrl host port virtual_host) (user, password))[i]?).map ApiQueue.name) ∧
    ((c.get_list_queues (fun _ _ => [⟨"a", []⟩, ⟨"b", []⟩])
        "guest" "guest" "localhost" 15672 none).2 = ["a", "b"]) := by
  refine ⟨rfl, fun i => ?_, rfl⟩
  simp [AIORabbitMQ.get_list_queues]

/-- Claim C10: the configuration fields durable, auto_ack, auto_delete
and delivery_mode are fixed at construction: no public operation of
either client changes any of them. -/
theorem claim_C10_config_never_mutated
    (cs : RabbitMQ) (ca : AIORabbitMQ) (env : ChannelEnv)
    (http : String → String × String → List ApiQueue)
    (host : String) (port : Nat) (u p q b ex : String) (tag : Nat)
    (virtual_host : Option String) :
    ((cs.connect host port u p).config = cs.config) ∧
    ((cs.disconnect).1.config = cs.config) ∧
    ((cs.send q b ex).1.config = cs.config) ∧
    ((cs.receive q).1.config = cs.config) ∧
    ((cs.delete_queue q).1.config = cs.config) ∧
    ((cs.delete_exchange ex).1.config = cs.config) ∧
    ((cs.commit_ack tag).1.config = cs.config) ∧
    (((ca.connect host port u p).1).config = ca.config) ∧
    ((ca.disconnect).1.config = ca.config) ∧
    ((ca.send env q b ex).1.config = ca.config) ∧
    ((ca.receive env q).1.config = ca.config) ∧
    ((ca.get_list_queues http u p host port virtual_host).1.config = ca.config) ∧
    ((ca.delete_queue q).1.config = ca.config) ∧
    ((ca.delete_exchange ex).1.config = ca.config) ∧
    ((ca.commit_ack).1.config = ca.config) := by
  refine ⟨rfl, ?_, ?_, ?_, ?_, ?_, rfl, rfl, ?_, ?_, ?_, rfl, ?_, ?_, rfl⟩ <;>
    first
      | (cases hc : cs.channel <;>
          simp [RabbitMQ.send, RabbitMQ.receive, RabbitMQ.delete_queue,
            RabbitMQ.delete_exchange, hc])
      | (cases hc : cs.connection <;> simp [RabbitMQ.disconnect, hc])
      | (cases hc : ca.connection <;> simp [AIORabbitMQ.disconnect, hc])
      | (cases hc : ca.channel <;>
          simp [AIORabbitMQ.send, AIORabbitMQ.receive, AIORabbitMQ.delete_queue,
            AIORabbitMQ.delete_exchange, hc] <;>
          rcases hq : ca.ensure_queue env q with ⟨tr, r⟩ <;> cases r <;> simp)

/-- Claim C5 counterexample: a blocking client that has connected and
then disconnected still holds its channel attribute (disconnect only
closes the connection), so a subsequent send does not fail with a
not-connected error: it issues queue_declare and basic_publish on the
retained channel object. -/
theorem claim_C5_counterexample :
    ((syncConnected.disconnect).1.channel = some ()) ∧
    ((syncConnected.disconnect).1.send "jobs" "hello" "").2
      = .ok [.queue_declare "jobs" false false,
             .basic_publish "" "jobs" "hello" none] :=
  ⟨rfl, rfl⟩

/-- Claim C5 amended: for the sync client, send, receive, delete_queue,
delete_exchange and disconnect invoked on a never-connected client fail
with the AttributeError raised by the None-valued channel/connection
attribute (the not-connected failure) and perform no broker operation;
after disconnect, however, the connection and channel attributes remain
set, so these operations are issued to the underlying (closed) channel
instead of failing a client-side not-connected check. -/
theorem claim_C5_not_connected_only_before_connect
    (d a ad : Bool) (q b ex : String) (host : String) (port : Nat)
    (u p : String) :
    ((RabbitMQ.init d a ad).send q b ex
      = (RabbitMQ.init d a ad, .error (.noneTypeAttr "queue_declare"))) ∧
    ((RabbitMQ.init d a ad).receive q
      = (RabbitMQ.init d a ad, .error (.noneTypeAttr "queue_declare"))) ∧
    ((RabbitMQ.init d a ad).delete_queue q
      = (RabbitMQ.init d a ad, .error (.noneTypeAttr "queue_delete"))) ∧
    ((RabbitMQ.init d a ad).delete_exchange ex
      = (RabbitMQ.init d a ad, .error (.noneTypeAttr "exchange_delete"))) ∧
    ((RabbitMQ.init d a ad).disconnect
      = (RabbitMQ.init d a ad, .error (.noneTypeAttr "close"))) ∧
    ((((RabbitMQ.init d a ad).connect host port u p).disconnect).1.channel
      = some ()) ∧
    (((((RabbitMQ.init d a ad).connect host port u p).disconnect).1.send q b ex).2
      = .ok [.queue_declare q d ad,
             .basic_publish ex q b (if d then some 2 else none)]) := by
  refine ⟨rfl, rfl, rfl, rfl, rfl, rfl, ?_⟩
  simp [RabbitMQ.init, RabbitMQ.connect, RabbitMQ.disconnect, RabbitMQ.send]

/-- Claim C7 counterexample: urllib.parse.quote keeps the slash (its
default safe set is the slash), so the reserved character slash in a
password is placed verbatim in the URL; the authority component of the
resulting URL (up to the first slash after the scheme) is then
user-colon-pa, which has lost the at-sign and the host — the URL
structure is corrupted. -/
theorem claim_C7_counterexample :
    (pythonQuote "pa/ss" = "pa/ss") ∧
    (aioConnectionUrl "user" "pa/ss" "myhost" 5672
      = "amqp://user:pa/ss@myhost:5672/") ∧
    (urlAuthority (aioConnectionUrl "user" "pa/ss" "myhost" 5672) = "user:pa") ∧
    (¬ '@' ∈ (urlAuthority (aioConnectionUrl "user" "pa/ss" "myhost" 5672)).data) :=
  ⟨rfl, rfl, rfl, by decide⟩

/-- Claim C7 amended: connect percent-encodes username and password with
urllib.parse.quote before interpolating them into the amqp URL; quote
escapes every reserved character except the slash, so in particular the
authority delimiters colon and at-sign never appear unescaped in the
encoded credentials — but a slash in the credentials is left verbatim
(quote defaults to safe equal slash) and still corrupts the URL
structure, as the counterexample shows. -/
theorem claim_C7_credentials_quoted
    (c : AIORabbitMQ) (host : String) (port : Nat) (username password : String) :
    ((c.connect host port username password).2
      = "amqp://" ++ pythonQuote username ++ ":" ++ pythonQuote password
        ++ "@" ++ host ++ aioPortPart port ++ "/") ∧
    (∀ ch ∈ (pythonQuote username).data, ch ≠ ':' ∧ ch ≠ '@') ∧
    (∀ ch ∈ (pythonQuote password).data, ch ≠ ':' ∧ ch ≠ '@') :=
  ⟨rfl, pythonQuote_no_authority_delims username,
    pythonQuote_no_authority_delims password⟩

/-- Claim C7 witness: the amended theorem applied to concrete credentials
containing reserved characters. -/
theorem claim_C7_witness :
    ((aioConnected.connect "myhost" 5672 "us@er" "pa:ss").2
      = "amqp://" ++ pythonQuote "us@er" ++ ":" ++ pythonQuote "pa:ss"
        ++ "@" ++ "myhost" ++ aioPortPart 5672 ++ "/") ∧
    ('%' ≠ ':' ∧ '%' ≠ '@') :=
  ⟨(claim_C7_credentials_quoted aioConnected "myhost" 5672 "us@er" "pa:ss").1,
   (claim_C7_credentials_quoted aioConnected "myhost" 5672 "us@er" "pa:ss").2.1
     '%' (by decide)⟩

/-! ### Helper lemmas about the async traces -/

theorem ensure_queue_publishModes (c : AIORabbitMQ) (env : ChannelEnv) (q : String) :
    publishModes (c.ensure_queue env q).1 = [] := by
  unfold AIORabbitMQ.ensure_queue
  cases hq : env.get_queue q with
  | ok u => simp [publishModes]
  | error e =>
    cases hd : env.declare_queue q c.durable c.auto_delete <;> simp [publishModes]

theorem ensure_queue_no_exchange (c : AIORabbitMQ) (env : ChannelEnv) (q : String) :
    (c.ensure_queue env q).1.filter isExchangeResolution = [] := by
  unfold AIORabbitMQ.ensure_queue
  cases hq : env.get_queue q with
  | ok u => simp [isExchangeResolution]
  | error e =>
    cases hd : env.declare_queue q c.durable c.auto_delete <;>
      simp [isExchangeResolution]

theorem publish_step_modes (c : AIORabbitMQ) (env : ChannelEnv) (q b ex : String) :
    (publishModes (c.publish_step env q b ex).1).all
      (fun m => m = c.delivery_mode) = true := by
  unfold AIORabbitMQ.publish_step
  by_cases hex : ex = ""
  · simp [hex, publishModes]
  · cases hx : env.get_exchange ex with
    | ok u => simp [hex, publishModes]
    | error e =>
      cases hd : env.declare_exchange ex c.auto_delete <;>
        simp [hex, publishModes]

theorem send_publishModes_all (c : AIORabbitMQ) (env : ChannelEnv) (q b ex : String) :
    (publishModes (c.send env q b ex).2.1).all
      (fun m => m = c.delivery_mode) = true := by
  unfold AIORabbitMQ.send
  cases hc : c.channel with
  | none => simp [publishModes]
  | some u =>
    rcases hq : c.ensure_queue env q with ⟨tr, r⟩
    have htr : publishModes tr = [] := by
      have := ensure_queue_publishModes c env q
      rw [hq] at this
      exact this
    cases r with
    | error e => simp [htr]
    | ok u2 =>
      have := publish_step_modes c env q b ex
      simp only [publishModes, List.filterMap_append, List.all_append] at *
      simp [htr, this]

/-- Claim C1: the async send and receive follow the assert-first policy
on the queue: they first attempt the passive fetch get_queue with ensure;
exactly when that fetch fails they reopen the channel and declare the
queue with the configured durable and auto_delete flags; after a
successful ensure step either operation proceeds (send runs its publish
step, receive registers the consumer). -/
theorem claim_C1_assert_first_queue
    (c : AIORabbitMQ) (env : ChannelEnv) (q b ex : String)
    (hc : c.channel = some ()) :
    (∀ u, env.get_queue q = .ok u →
      c.ensure_queue env q = ([.get_queue q true], .ok ())) ∧
    (∀ e, env.get_queue q = .error e →
      (c.ensure_queue env q).1
        = [.get_queue q true, .reopen, .declare_queue q c.durable c.auto_delete]) ∧
    ((c.ensure_queue env q).2 = .ok () →
      ((c.send env q b ex).2
        = ((c.ensure_queue env q).1 ++ (c.publish_step env q b ex).1,
           (c.publish_step env q b ex).2)) ∧
      ((c.receive env q).2
        = ((c.ensure_queue env q).1 ++ [.consume q c.auto_ack], .ok ()))) := by
  refine ⟨fun u hu => ?_, fun e he => ?_, fun hok => ⟨?_, ?_⟩⟩
  · cases u
    unfold AIORabbitMQ.ensure_queue
    rw [hu]
  · unfold AIORabbitMQ.ensure_queue
    rw [he]
    cases hd : env.declare_queue q c.durable c.auto_delete <;> simp
  · unfold AIORabbitMQ.send
    rw [hc]
    rcases hq : c.ensure_queue env q with ⟨tr, r⟩
    rw [hq] at hok
    simp only at hok
    cases r with
    | error e => exact absurd hok (by simp)
    | ok u => simp
  · unfold AIORabbitMQ.receive
    rw [hc]
    rcases hq : c.ensure_queue env q with ⟨tr, r⟩
    rw [hq] at hok
    simp only at hok
    cases r with
    | error e => exact absurd hok (by simp)
    | ok u => simp

/-- Claim C1 witness: the theorem applied to a connected non-durable
client, once in an environment where the passive fetch succeeds and once
in one where it fails. -/
theorem claim_C1_witness :
    (aioConnected.ensure_queue envAllOk "jobs" = ([.get_queue "jobs" true], .ok ())) ∧
    ((aioConnected.ensure_queue (envPassiveFails .channelClosed) "jobs").1
      = [.get_queue "jobs" true, .reopen, .declare_queue "jobs" false false]) ∧
    ((aioConnected.receive envAllOk "jobs").2
      = ([Effect.get_queue "jobs" true] ++ [.consume "jobs" true], .ok ())) :=
  ⟨(claim_C1_assert_first_queue aioConnected envAllOk "jobs" "b" "" rfl).1 () rfl,
   (claim_C1_assert_first_queue aioConnected (envPassiveFails .channelClosed)
      "jobs" "b" "" rfl).2.1 .channelClosed rfl,
   ((claim_C1_assert_first_queue aioConnected envAllOk "jobs" "b" "" rfl).2.2 rfl).2⟩

/-- Claim C2: a client built with durable true records the persistent
delivery mode 2 and a client built with durable false records none, in
both variants; and send attaches exactly that recorded delivery mode to
every message it publishes (the blocking client publishes exactly once
per send). -/
theorem claim_C2_persistent_iff_durable
    (d a ad : Bool) (env : ChannelEnv) (q b ex : String)
    (host : String) (port : Nat) (u p : String) :
    ((RabbitMQ.init d a ad).delivery_mode = if d then some 2 else none) ∧
    ((AIORabbitMQ.init d a ad).delivery_mode = if d then some 2 else none) ∧
    (((RabbitMQ.init d a ad).delivery_mode = some 2) ↔ d = true) ∧
    (publishModes (okEffects (((RabbitMQ.init d a ad).connect host port u p).send q b ex).2)
      = [if d then some 2 else none]) ∧
    ((publishModes ((((AIORabbitMQ.init d a ad).connect host port u p).1).send env q b ex).2.1).all
      (fun m => m = if d then some 2 else none) = true) := by
  refine ⟨rfl, rfl, ?_, ?_, ?_⟩
  · cases d <;> simp [RabbitMQ.init]
  · simp [RabbitMQ.init, RabbitMQ.connect, RabbitMQ.send, okEffects, publishModes]
  · exact send_publishModes_all _ env q b ex

/-- Claim C4: async send with the empty exchange name performs no
exchange resolution whatsoever (no get_exchange, no declare_exchange)
and, once the queue is ensured, publishes through the default exchange
with the queue name as routing key. -/
theorem claim_C4_default_exchange_no_resolution
    (c : AIORabbitMQ) (env : ChannelEnv) (q b : String)
    (hc : c.channel = some ()) :
    (((c.send env q b "").2.1).filter isExchangeResolution = []) ∧
    ((c.ensure_queue env q).2 = .ok () →
      (c.send env q b "").2
        = ((c.ensure_queue env q).1 ++ [.publish_default b c.delivery_mode q],
           .ok ())) := by
  constructor
  · unfold AIORabbitMQ.send
    rw [hc]
    rcases hq : c.ensure_queue env q with ⟨tr, r⟩
    have htr : tr.filter isExchangeResolution = [] := by
      have := ensure_queue_no_exchange c env q
      rw [hq] at this
      exact this
    cases r with
    | error e => simpa using htr
    | ok u =>
      simp only [AIORabbitMQ.publish_step, if_pos rfl, List.filter_append, htr]
      simp [isExchangeResolution]
  · intro hok
    unfold AIORabbitMQ.send
    rw [hc]
    rcases hq : c.ensure_queue env q with ⟨tr, r⟩
    rw [hq] at hok
    simp only at hok
    cases r with
    | error e => exact absurd hok (by simp)
    | ok u => simp [AIORabbitMQ.publish_step]

/-- Claim C4 witness: the theorem applied to a connected client in an
environment where the queue exists. -/
theorem claim_C4_witness :
    ((aioConnected.send envAllOk "jobs" "hello" "").2.1).filter isExchangeResolution = []
    ∧ (aioConnected.send envAllOk "jobs" "hello" "").2
        = ((aioConnected.ensure_queue envAllOk "jobs").1
            ++ [.publish_default "hello" none "jobs"], .ok ()) :=
  ⟨(claim_C4_default_exchange_no_resolution aioConnected envAllOk "jobs" "hello" rfl).1,
   (claim_C4_default_exchange_no_resolution aioConnected envAllOk "jobs" "hello" rfl).2 rfl⟩

/-- Claim C9: the recovery branches of the async assert-first paths are
bare excepts: which exception the passive fetch raised is irrelevant —
two environments whose passive get_queue fail with different errors (all
else equal) give identical send and receive behaviour, the recovery
trace always ends in reopen plus declare, and when the declaration
succeeds no trace of the passive error reaches the caller; the same
holds for the passive get_exchange of the publish path. -/
theorem claim_C9_bare_except_swallows_everything
    (c : AIORabbitMQ) (env1 env2 env3 env4 : ChannelEnv) (q b ex : String)
    (e1 e2 e3 e4 : PyErr)
    (hq1 : env1.get_queue q = .error e1) (hq2 : env2.get_queue q = .error e2)
    (hd12 : env1.declare_queue = env2.declare_queue)
    (hg12 : env1.get_exchange = env2.get_exchange)
    (hx12 : env1.declare_exchange = env2.declare_exchange)
    (hx3 : env3.get_exchange ex = .error e3) (hx4 : env4.get_exchange ex = .error e4)
    (hd34 : env3.declare_exchange = env4.declare_exchange) :
    (c.send env1 q b ex = c.send env2 q b ex) ∧
    (c.receive env1 q = c.receive env2 q) ∧
    ((c.ensure_queue env1 q).1
      = [.get_queue q true, .reopen, .declare_queue q c.durable c.auto_delete]) ∧
    (env1.declare_queue q c.durable c.auto_delete = .ok () →
      (c.ensure_queue env1 q).2 = .ok ()) ∧
    (c.publish_step env3 q b ex = c.publish_step env4 q b ex) ∧
    (ex ≠ "" → env3.declare_exchange ex c.auto_delete = .ok () →
      (c.publish_step env3 q b ex).2 = .ok ()) := by
  have hens : c.ensure_queue env1 q = c.ensure_queue env2 q := by
    unfold AIORabbitMQ.ensure_queue
    rw [hq1, hq2, hd12]
  have hps : c.publish_step env1 q b ex = c.publish_step env2 q b ex := by
    unfold AIORabbitMQ.publish_step
    rw [hg12, hx12]
  refine ⟨?_, ?_, ?_, ?_, ?_, ?_⟩
  · unfold AIORabbitMQ.send
    rw [hens, hps]
  · unfold AIORabbitMQ.receive
    rw [hens]
  · unfold AIORabbitMQ.ensure_queue
    rw [hq1]
    cases hd : env1.declare_queue q c.durable c.auto_delete <;> simp
  · intro hok
    unfold AIORabbitMQ.ensure_queue
    rw [hq1, hok]
  · unfold AIORabbitMQ.publish_step
    by_cases hex : ex = ""
    · simp [hex]
    · simp only [if_neg hex]
      rw [hx3, hx4, hd34]
  · intro hex hok
    unfold AIORabbitMQ.publish_step
    simp only [if_neg hex]
    rw [hx3, hok]

/-- Claim C9 witness: the theorem applied to a connected client and two
environments whose passive fetches fail with a transport error and a
programming error respectively. -/
theorem claim_C9_witness :
    (aioConnected.send (envQueueFails .transportError) "jobs" "hello" "logs"
      = aioConnected.send (envQueueFails .typeError) "jobs" "hello" "logs") ∧
    ((aioConnected.ensure_queue (envQueueFails .transportError) "jobs").2 = .ok ()) ∧
    ((aioConnected.publish_step (envPassiveFails .transportError) "jobs" "hello" "logs").2
      = .ok ()) := by
  have h := claim_C9_bare_except_swallows_everything aioConnected
    (envQueueFails .transportError) (envQueueFails .typeError)
    (envPassiveFails .transportError) (envPassiveFails .typeError)
    "jobs" "hello" "logs" .transportError .typeError .transportError .typeError
    rfl rfl rfl rfl rfl rfl rfl rfl
  exact ⟨h.1, h.2.2.2.1 rfl, h.2.2.2.2.2 (by decide) rfl⟩

/-- Claim C3 counterexample: with the connected non-durable clients and
a broker on which every channel call succeeds, a send to the named
exchange logs issues no declare_exchange call in either client — the
blocking client performs no exchange resolution at all, and the async
client resolves the exchange by the passive get_exchange (assert-first),
declaring only on failure.  This falsifies the declare-always claim on
both counts. -/
theorem claim_C3_counterexample :
    ((syncConnected.send "jobs" "hello" "logs").2
      = .ok [.queue_declare "jobs" false false,
             .basic_publish "logs" "jobs" "hello" none]) ∧
    ((okEffects (syncConnected.send "jobs" "hello" "logs").2).filter
        isExchangeResolution = []) ∧
    ((aioConnected.send envAllOk "jobs" "hello" "logs").2.1
      = [.get_queue "jobs" true, .get_exchange "logs",
         .publish_on (.fetched "logs") "hello" none "jobs"]) ∧
    (((aioConnected.send envAllOk "jobs" "hello" "logs").2.1).filter
        isExchangeDeclare = []) :=
  ⟨rfl, rfl, rfl, rfl⟩

/-- Claim C3 amended: no exchange operation uses declare-always.  The
async named-exchange publish path is assert-first: a passive
get_exchange, and only on its failure reopen plus declare_exchange with
the configured auto_delete.  The blocking client performs no exchange
resolution at all: its send emits no get_exchange or declare_exchange
and hands the exchange name directly to basic_publish.  delete_exchange
declares nothing in either client. -/
theorem claim_C3_exchange_policies
    (c : AIORabbitMQ) (cs : RabbitMQ) (env : ChannelEnv) (q b ex : String)
    (hex : ex ≠ "") :
    (∀ u, env.get_exchange ex = .ok u →
      c.publish_step env q b ex
        = ([.get_exchange ex, .publish_on (.fetched ex) b c.delivery_mode q],
           .ok ())) ∧
    (∀ e, env.get_exchange ex = .error e →
      (c.publish_step env q b ex).1.take 3
        = [.get_exchange ex, .reopen, .declare_exchange ex c.auto_delete]) ∧
    (∀ effs, (cs.send q b ex).2 = .ok effs →
      effs.filter isExchangeResolution = [] ∧
      .basic_publish ex q b cs.delivery_mode ∈ effs) ∧
    (c.channel = some () → (c.delete_exchange ex).2 = .ok [.exchange_delete ex]) ∧
    (cs.channel = some () → (cs.delete_exchange ex).2 = .ok [.exchange_delete ex]) := by
  refine ⟨fun u hu => ?_, fun e he => ?_, fun effs heffs => ?_, fun hc => ?_, fun hc => ?_⟩
  · cases u
    unfold AIORabbitMQ.publish_step
    simp only [if_neg hex]
    rw [hu]
  · unfold AIORabbitMQ.publish_step
    simp only [if_neg hex]
    rw [he]
    cases hd : env.declare_exchange ex c.auto_delete <;> simp
  · unfold RabbitMQ.send at heffs
    cases hc : cs.channel with
    | none => rw [hc] at heffs; exact absurd heffs (by simp)
    | some u =>
      rw [hc] at heffs
      simp only [Except.ok.injEq] at heffs
      subst heffs
      exact ⟨by simp [isExchangeResolution], by simp⟩
  · unfold AIORabbitMQ.delete_exchange
    rw [hc]
  · unfold RabbitMQ.delete_exchange
    rw [hc]

/-- Claim C3 amended witness: the theorem applied to the connected
clients, the exchange logs and an all-succeeding broker. -/
theorem claim_C3_amended_witness :
    (aioConnected.publish_step envAllOk "jobs" "hello" "logs"
      = ([.get_exchange "logs", .publish_on (.fetched "logs") "hello" none "jobs"],
         .ok ())) ∧
    ([Effect.queue_declare "jobs" false false,
      Effect.basic_publish "logs" "jobs" "hello" none].filter isExchangeResolution = []
      ∧ Effect.basic_publish "logs" "jobs" "hello" none
          ∈ [Effect.queue_declare "jobs" false false,
             Effect.basic_publish "logs" "jobs" "hello" none]) ∧
    ((syncConnected.delete_exchange "logs").2 = .ok [.exchange_delete "logs"]) := by
  have h := claim_C3_exchange_policies aioConnected syncConnected envAllOk
    "jobs" "hello" "logs" (by decide)
  exact ⟨h.1 () rfl, h.2.2.1 _ rfl, h.2.2.2.2 rfl⟩
